import Mathlib

/-!
Shallow embedding of the storefront-facing geolocation middleware
(`app/routes/proxy.config.tsx`, `app/routes/api.geolocation.tsx`,
`app/routes/proxy.analytics.tsx`, `app/utils/billing.server.ts`,
`app/billing.config.ts`) of the Geolocation-pro-app repository.

JavaScript runtime behaviour relevant to the embedded code is made
explicit: header values and optional DB columns are `Option String`
(with `none` for null/undefined), JS truthiness of such values is
`jsTruthy` (null/undefined and the empty string are falsy), and the
result of `Number(...)`, which can be `NaN`, is `Option Nat` with
`none` for `NaN` (the embedded strings are non-negative integers, the
only shapes the rule editor stores).  `Intl` timezone conversion is an
external effect; it is modelled as an environment `TzEnv` mapping a
timezone name to the local wall-clock time, with `none` standing for
the conversion throwing (invalid timezone identifier).
-/

/-- JS truthiness of a nullable string: null/undefined and "" are falsy. -/
def jsTruthy : Option String → Bool
  | none => false
  | some s => !(s == "")

/-- Split a character list at every occurrence of the separator
(semantics of JS `split` with a one-character separator: the empty
input yields one empty group). -/
def splitOnChar (sep : Char) : List Char → List (List Char)
  | [] => [[]]
  | c :: rest =>
      match splitOnChar sep rest with
      | [] => [[c]]
      | g :: gs => if c = sep then [] :: g :: gs else (c :: g) :: gs

/-- JS `s.split(sep)` for a one-character separator. -/
def jsSplit (sep : Char) (s : String) : List String :=
  (splitOnChar sep s.data).map (fun l => ⟨l⟩)

/-- ASCII whitespace, the whitespace occurring in this app's
comma-separated fields. -/
def isWsChar (c : Char) : Bool := c == ' ' || c == '\t' || c == '\n' || c == '\r'

/-- Drop leading and trailing whitespace characters. -/
def trimChars (l : List Char) : List Char :=
  ((l.dropWhile isWsChar).reverse.dropWhile isWsChar).reverse

/-- JS `s.trim()` (on the ASCII data this app stores). -/
def jsTrim (s : String) : String := ⟨trimChars s.data⟩

/-- Decimal digit string to number; `none` when any character is not
a digit (or the list is empty). -/
def digitsToNat : List Char → Option Nat
  | [] => none
  | l => l.foldl (fun acc c => match acc with
      | none => none
      | some n => if c.isDigit then some (n * 10 + (c.toNat - 48)) else none) (some 0)

/-- JS `s.toUpperCase()` (ASCII). -/
def jsToUpper (s : String) : String := ⟨s.data.map Char.toUpper⟩

/-- Model of JS `Number(s)` on the strings this app stores in schedule
fields: whitespace-only strings coerce to 0, decimal digit strings to
their value, anything else is `NaN` (`none`). -/
def jsNumber (s : String) : Option Nat :=
  let t := trimChars s.data
  if t = [] then some 0 else digitsToNat t

/-- Comparison `a <= b` under JS `NaN` semantics: any comparison with
`NaN` is false. -/
def jsLe : Option Nat → Option Nat → Bool
  | some a, some b => a ≤ b
  | _, _ => false

/-- Comparison `a < b` under JS `NaN` semantics. -/
def jsLt : Option Nat → Option Nat → Bool
  | some a, some b => a < b
  | _, _ => false

/-- Model of `s.split(":").map(Number)` destructured as `[h, m]` and
then `h * 60 + m` (minutes from midnight); `none` when the result is
`NaN` (missing ":" segment or non-numeric part). -/
def parseMinutesHM (s : String) : Option Nat :=
  match jsSplit ':' s with
  | h :: m :: _ =>
      match jsNumber h, jsNumber m with
      | some hv, some mv => some (hv * 60 + mv)
      | _, _ => none
  | _ => none

/-- A `RedirectRule` row (prisma model `RedirectRule`; nullable TEXT
columns are `Option String`). -/
structure RedirectRule where
  id : String
  shop : String
  name : String
  matchType : String
  countryCodes : String
  ipAddresses : String
  targetUrl : String
  ruleType : String
  isActive : Bool
  priority : Int
  scheduleEnabled : Bool
  startTime : Option String
  endTime : Option String
  daysOfWeek : Option String
  timezone : Option String
  deriving Repr, DecidableEq

/-- Local wall-clock time produced by the timezone conversion in
`proxy.config.tsx`: minutes from midnight and weekday index
(0=Sunday..6=Saturday). -/
structure LocalTime where
  minutes : Nat
  day : Nat
  deriving Repr, DecidableEq

/-- Timezone environment: the result of converting the current instant
to wall-clock time in a named timezone; `none` models the conversion
throwing (e.g. invalid IANA identifier handed to `Intl.DateTimeFormat`). -/
abbrev TzEnv := String → Option LocalTime

/-- Model of `rule.timezone || "UTC"` in `proxy.config.tsx`. -/
def effectiveTimezone (r : RedirectRule) : String :=
  if jsTruthy r.timezone then r.timezone.getD "" else "UTC"

/-- Day-of-week check from the schedule filter: skip the rule when
`daysOfWeek` is truthy and does not contain the current weekday index
rendered as a string (no trimming in the source). -/
def dayCheck (dow : Option String) (day : Nat) : Bool :=
  if jsTruthy dow then (jsSplit ',' (dow.getD "")).contains (toString day) else true

/-- Time-window check from the schedule filter: runs only when both
`startTime` and `endTime` are truthy; normal windows (`start <= end`)
require `start <= now <= end`, overnight windows reject only
`now < start && now > end`; any `NaN` comparison falls through to
in-window, exactly as the source control flow does. -/
def timeCheck (st et : Option String) (now : Nat) : Bool :=
  if jsTruthy st && jsTruthy et then
    let sm := parseMinutesHM (st.getD "")
    let em := parseMinutesHM (et.getD "")
    if jsLe sm em then
      !(jsLt (some now) sm || jsLt em (some now))
    else
      !(jsLt (some now) sm && jsLt em (some now))
  else true

/-- The schedule filter body in `proxy.config.tsx` (the predicate of
`countryRules.filter`): rules without a schedule always pass; if the
timezone conversion throws, the catch branch returns `true` (fail
safe); otherwise the day check and then the time-window check run. -/
def isInWindow (r : RedirectRule) (tz : TzEnv) : Bool :=
  if !r.scheduleEnabled then true
  else
    match tz (effectiveTimezone r) with
    | none => true
    | some lt =>
        if !dayCheck r.daysOfWeek lt.day then false
        else timeCheck r.startTime r.endTime lt.minutes

/-- The proxy-forwarded request headers consulted when picking the
visitor IP; a `none` value is an absent header. -/
structure RequestHeaders where
  shopifyClientIP : Option String
  cfConnectingIP : Option String
  xRealIP : Option String
  trueClientIP : Option String
  xClientIP : Option String
  xForwardedFor : Option String
  deriving Repr, DecidableEq

/-- `getVisitorIP` from `proxy.config.tsx`: first truthy among
x-shopify-client-ip, cf-connecting-ip, x-real-ip, true-client-ip,
x-client-ip, then the trimmed first comma segment of x-forwarded-for,
else the placeholder. -/
def getVisitorIP (h : RequestHeaders) : String :=
  if jsTruthy h.shopifyClientIP then h.shopifyClientIP.getD ""
  else if jsTruthy h.cfConnectingIP then h.cfConnectingIP.getD ""
  else if jsTruthy h.xRealIP then h.xRealIP.getD ""
  else if jsTruthy h.trueClientIP then h.trueClientIP.getD ""
  else if jsTruthy h.xClientIP then h.xClientIP.getD ""
  else if jsTruthy h.xForwardedFor then
    jsTrim ((jsSplit ',' (h.xForwardedFor.getD "")).headD "")
  else "0.0.0.0"

/-- Visitor IP selection in `api.geolocation.tsx`:
`x-shopify-client-ip || x-forwarded-for?.split(',')[0] || "0.0.0.0"`;
the X-Forwarded-For segment is not trimmed there. -/
def apiVisitorIP (h : RequestHeaders) : String :=
  if jsTruthy h.shopifyClientIP then h.shopifyClientIP.getD ""
  else
    let seg := h.xForwardedFor.map (fun s => (jsSplit ',' s).headD "")
    if jsTruthy seg then seg.getD "" else "0.0.0.0"

/-- Modelled from the spec: the four-step header priority the claim
describes (platform-injected client-IP header, then CDN-injected
header, then trimmed first X-Forwarded-For segment, then the
placeholder), for comparison with the source's selection. -/
def specVisitorIP (h : RequestHeaders) : String :=
  if jsTruthy h.shopifyClientIP then h.shopifyClientIP.getD ""
  else if jsTruthy h.cfConnectingIP then h.cfConnectingIP.getD ""
  else if jsTruthy h.xForwardedFor then
    jsTrim ((jsSplit ',' (h.xForwardedFor.getD "")).headD "")
  else "0.0.0.0"

/-- Insert a rule into a priority-descending list, before the first
element of strictly smaller priority (stable: equal priorities keep
their earlier relative order, matching a stable ORDER BY). -/
def insertByPriority (r : RedirectRule) : List RedirectRule → List RedirectRule
  | [] => [r]
  | x :: xs =>
      if x.priority < r.priority then r :: x :: xs
      else x :: insertByPriority r xs

/-- Sort a list of rules by priority descending (semantics of prisma
`orderBy: \x7b priority: "desc" \x7d`). -/
def sortByPriorityDesc (l : List RedirectRule) : List RedirectRule :=
  l.foldr insertByPriority []

/-- The list is ordered by priority descending. -/
def PriorityDesc (l : List RedirectRule) : Prop :=
  l.Pairwise (fun a b => b.priority ≤ a.priority)

instance : DecidablePred PriorityDesc := fun l =>
  inferInstanceAs (Decidable (l.Pairwise _))

/-- `redirectRule.findMany` with `shop`, `isActive: true`,
`matchType: "country"`, ordered by priority descending
(`proxy.config.tsx`). -/
def countryRulesQuery (db : List RedirectRule) (shop : String) : List RedirectRule :=
  sortByPriorityDesc
    (db.filter (fun r => r.shop == shop && r.isActive && r.matchType == "country"))

/-- `redirectRule.findMany` with `shop`, `isActive: true`,
`matchType: "ip"`, ordered by priority descending (`proxy.config.tsx`).
No schedule column is selected and no schedule filter runs on it. -/
def ipRulesQuery (db : List RedirectRule) (shop : String) : List RedirectRule :=
  sortByPriorityDesc
    (db.filter (fun r => r.shop == shop && r.isActive && r.matchType == "ip"))

/-- `redirectRule.findMany` with `shop`, `isActive: true`, ordered by
priority descending (`api.geolocation.tsx`). -/
def allActiveRulesQuery (db : List RedirectRule) (shop : String) : List RedirectRule :=
  sortByPriorityDesc (db.filter (fun r => r.shop == shop && r.isActive))

/-- `activeCountryRules` in `proxy.config.tsx`: the country query
filtered by the schedule check. -/
def activeCountryRules (db : List RedirectRule) (shop : String) (tz : TzEnv) :
    List RedirectRule :=
  (countryRulesQuery db shop).filter (fun r => isInWindow r tz)

/-- The `rules` list of `api.geolocation.tsx` before field projection:
the active query filtered to country rules (no schedule filter exists
in that route). -/
def apiCountryRules (db : List RedirectRule) (shop : String) : List RedirectRule :=
  (allActiveRulesQuery db shop).filter (fun r => r.matchType == "country")

/-- The `ipRules` list of `api.geolocation.tsx` before field
projection. -/
def apiIpRules (db : List RedirectRule) (shop : String) : List RedirectRule :=
  (allActiveRulesQuery db shop).filter (fun r => r.matchType == "ip")

/-- A country rule as sent to the storefront script
(`transformedCountryRules` mapping). -/
structure ClientCountryRule where
  ruleId : String
  name : String
  countries : List String
  targetUrl : String
  ruleType : String
  priority : Int
  deriving Repr, DecidableEq

/-- An IP rule as sent to the storefront script
(`transformedIPRules` mapping). -/
structure ClientIPRule where
  ruleId : String
  name : String
  ips : List String
  targetUrl : String
  ruleType : String
  priority : Int
  deriving Repr, DecidableEq

/-- Field projection of a country rule for the client:
`countryCodes.split(",").map(c => c.trim().toUpperCase())`. -/
def countryRuleTransform (r : RedirectRule) : ClientCountryRule :=
  { ruleId := r.id, name := r.name
    countries := (jsSplit ',' r.countryCodes).map (fun c => jsToUpper (jsTrim c))
    targetUrl := r.targetUrl, ruleType := r.ruleType, priority := r.priority }

/-- Field projection of an IP rule for the client:
`ipAddresses.split(",").map(ip => ip.trim())`. -/
def ipRuleTransform (r : RedirectRule) : ClientIPRule :=
  { ruleId := r.id, name := r.name
    ips := (jsSplit ',' r.ipAddresses).map jsTrim
    targetUrl := r.targetUrl, ruleType := r.ruleType, priority := r.priority }

/-- The `Settings` columns the storefront endpoints read (display-only
template/colour columns are pure passthrough and omitted here);
`currentPlan` is the nullable plan column read through the untyped
prisma access. -/
structure ShopSettings where
  mode : String
  excludeBots : Bool
  excludedIPs : String
  cookieDuration : Nat
  currentPlan : Option String
  deriving Repr, DecidableEq

/-- Defaults of the `Settings` table (migration defaults: mode
'popup', excludeBots true, excludedIPs '', cookieDuration 7;
`currentPlan` unset until billing syncs it), used by the lazy
`settings.create` in `proxy.config.tsx`. -/
def defaultSettings : ShopSettings :=
  { mode := "popup", excludeBots := true, excludedIPs := ""
    cookieDuration := 7, currentPlan := none }

/-- `PLAN_LIMITS` from `billing.config.ts`: free 100, premium 750,
plus 1500; `none` for a key that is not in the object. -/
def PLAN_LIMITS (p : String) : Option Nat :=
  if p = "free" then some 100
  else if p = "premium" then some 750
  else if p = "plus" then some 1500
  else none

/-- Model of `effectiveSettings.currentPlan || null`. -/
def normalizedPlan (cp : Option String) : Option String :=
  if jsTruthy cp then some (cp.getD "") else none

/-- Model of the plan-limit lookup in `proxy.config.tsx` (no plan
limit is 0, so the JS fallback in it fires exactly on a missing key). -/
def planLimitOf (cp : Option String) : Nat :=
  match normalizedPlan cp with
  | none => 100
  | some p =>
      match PLAN_LIMITS p with
      | some v => v
      | none => 100

/-- The plan-limit gate of `proxy.config.tsx`:
`currentPlan === FREE_PLAN && currentUsage >= planLimit`. -/
def limitSuspended (cp : Option String) (usage : Nat) : Bool :=
  decide (normalizedPlan cp = some "free") && decide (planLimitOf cp ≤ usage)

/-- Environment of one `proxy.config.tsx` loader invocation: request
data plus snapshots of the external collaborators.  `detectedCountry`
is the MaxMind result after its own swallowed try/catch (a throw and a
miss both leave the empty string).  `dbFails` models the first prisma
call inside the main try block throwing (data-store unavailable);
`tz` is the timezone-conversion environment used by the schedule
filter. -/
structure ConfigEnv where
  shopParam : Option String
  headers : RequestHeaders
  detectedCountry : String
  authOk : Bool
  dbFails : Bool
  settingsRow : Option ShopSettings
  db : List RedirectRule
  tz : TzEnv
  monthlyTotalVisitors : Option Nat

/-- The JSON document `proxy.config.tsx` answers with; `none` fields
are absent from the branch's body.  `limitExceeded` is present (true)
only in the plan-gate branch. -/
structure ConfigResponse where
  status : Nat
  enabled : Option Bool := none
  limitExceeded : Bool := false
  mode : Option String := none
  visitorIP : Option String := none
  detectedCountry : Option String := none
  isIPExcluded : Option Bool := none
  rules : List ClientCountryRule := []
  ipRules : List ClientIPRule := []
  errorMsg : Option String := none

/-- The `loader` of `proxy.config.tsx`, branch for branch: missing
shop → 400; bad proxy signature → 401; a throw inside the main try →
the catch's 500 with `enabled: false`; then the free-plan usage gate;
then the full config document with the schedule-filtered country rules
and the unfiltered (active, priority-sorted) IP rules. -/
def proxyConfigLoader (env : ConfigEnv) : ConfigResponse :=
  if !jsTruthy env.shopParam then
    { status := 400, enabled := some false, errorMsg := some "Missing shop parameter" }
  else if !env.authOk then
    { status := 401, errorMsg := some "Unauthorized: Invalid signature" }
  else if env.dbFails then
    { status := 500, enabled := some false, errorMsg := some "Internal server error" }
  else
    let shop := env.shopParam.getD ""
    let s := env.settingsRow.getD defaultSettings
    let usage := env.monthlyTotalVisitors.getD 0
    if limitSuspended s.currentPlan usage then
      { status := 200, enabled := some false, limitExceeded := true }
    else
      let visitorIP := getVisitorIP env.headers
      let excludedList :=
        if s.excludedIPs ≠ "" then (jsSplit ',' s.excludedIPs).map jsTrim else []
      { status := 200
        enabled := some (s.mode ≠ "disabled")
        mode := some s.mode
        visitorIP := some visitorIP
        detectedCountry := some env.detectedCountry
        isIPExcluded := some (excludedList.contains visitorIP)
        rules := (activeCountryRules env.db shop env.tz).map countryRuleTransform
        ipRules := (ipRulesQuery env.db shop).map ipRuleTransform }

/-- Environment of one `api.geolocation.tsx` loader invocation. -/
structure GeoEnv where
  shopParam : Option String
  headers : RequestHeaders
  dbFails : Bool
  settingsRow : Option ShopSettings
  db : List RedirectRule

/-- The JSON document `api.geolocation.tsx` answers with. -/
structure GeoResponse where
  status : Nat
  enabled : Option Bool := none
  mode : Option String := none
  visitorIP : Option String := none
  isIPExcluded : Option Bool := none
  rules : List ClientCountryRule := []
  ipRules : List ClientIPRule := []
  errorMsg : Option String := none

/-- The `loader` of `api.geolocation.tsx`: missing shop → 400; a throw
in the try → the catch's 500; no settings row → disabled defaults;
otherwise the full document; neither rule list passes through any
schedule filter in this route. -/
def apiGeolocationLoader (env : GeoEnv) : GeoResponse :=
  if !jsTruthy env.shopParam then
    { status := 400, errorMsg := some "Missing shop parameter" }
  else if env.dbFails then
    { status := 500, errorMsg := some "Internal server error" }
  else
    let shop := env.shopParam.getD ""
    match env.settingsRow with
    | none =>
        { status := 200, enabled := some false, mode := some "disabled"
          visitorIP := some (apiVisitorIP env.headers), rules := [], ipRules := [] }
    | some s =>
        { status := 200
          enabled := some (s.mode ≠ "disabled")
          mode := some s.mode
          visitorIP := some (apiVisitorIP env.headers)
          isIPExcluded := some
            (if s.excludedIPs ≠ "" then
              ((jsSplit ',' s.excludedIPs).map jsTrim).contains (apiVisitorIP env.headers)
            else false)
          rules := (apiCountryRules env.db shop).map countryRuleTransform
          ipRules := (apiIpRules env.db shop).map ipRuleTransform }

/-- Body of a posted analytics event (`proxy.analytics.tsx`); absent
JSON fields are `none`. -/
structure AnalyticsEvent where
  type : Option String
  countryCode : Option String
  ruleId : Option String
  ruleName : Option String
  visitorIP : Option String
  deriving Repr, DecidableEq

/-- Environment of one `proxy.analytics.tsx` action invocation:
`registered` is whether a `Settings` row exists for a shop; `dbFails`
models the first prisma call (the settings lookup) throwing;
`logWriteOk` is whether the `visitorLog.create` inside its own
swallowed try/catch succeeds. -/
structure AnalyticsEnv where
  shopParam : Option String
  registered : String → Bool
  dbFails : Bool
  logWriteOk : Bool

/-- What one analytics request answered and wrote: the HTTP status and
which rows were created/updated.  `usageTotalIncrement` is how much
the upsert added to `monthlyUsage.totalVisitors` (create sets 1,
update increments by 1, so it is 1 exactly when the upsert ran). -/
structure AnalyticsResult where
  status : Nat
  success : Bool := false
  logCreated : Bool := false
  countryStatUpserted : Bool := false
  ruleStatUpserted : Bool := false
  usageUpserted : Bool := false
  usageTotalIncrement : Nat := 0
  errorMsg : Option String := none
  deriving Repr

/-- `VALID_TYPES` whitelist of `proxy.analytics.tsx`. -/
def VALID_TYPES : List String :=
  ["visit", "popup_shown", "redirected", "auto_redirected", "blocked",
   "ip_redirected", "ip_blocked", "clicked_no", "dismissed"]

/-- Event types for which the per-country stats upsert builds a
non-empty update object. -/
def countryStatTypes : List String :=
  ["visit", "popup_shown", "redirected", "auto_redirected", "ip_redirected",
   "blocked", "ip_blocked"]

/-- Event types for which the per-rule stats upsert builds a non-empty
update object (a plain `blocked` is not among them). -/
def ruleStatTypes : List String :=
  ["popup_shown", "redirected", "auto_redirected", "ip_redirected",
   "clicked_no", "dismissed", "ip_blocked"]

/-- Event types that enter the monthly-usage upsert
("only count redirected + blocked"). -/
def usageTypes : List String :=
  ["redirected", "auto_redirected", "blocked", "ip_redirected", "ip_blocked"]

/-- The `action` of `proxy.analytics.tsx` for a parsed POST body:
missing shop/type → 400; unregistered shop → 401; type outside the
whitelist → 400; otherwise the visitor-log write (when `visitorIP` is
truthy and its guarded write succeeds), the country and rule stat
upserts (when their keys are truthy and the update object is
non-empty), and the monthly-usage upsert (for redirect/block types
only). -/
def analyticsAction (env : AnalyticsEnv) (evt : AnalyticsEvent) : AnalyticsResult :=
  if !(jsTruthy env.shopParam && jsTruthy evt.type) then
    { status := 400, errorMsg := some "Missing required fields" }
  else if env.dbFails then
    { status := 500, errorMsg := some "Internal Server Error" }
  else if !env.registered (env.shopParam.getD "") then
    { status := 401, errorMsg := some "Unauthorized: Invalid shop" }
  else
    let t := evt.type.getD ""
    if !VALID_TYPES.contains t then
      { status := 400, errorMsg := some "Invalid event type" }
    else
      { status := 200, success := true
        logCreated := jsTruthy evt.visitorIP && env.logWriteOk
        countryStatUpserted := jsTruthy evt.countryCode && countryStatTypes.contains t
        ruleStatUpserted := jsTruthy evt.ruleId && ruleStatTypes.contains t
        usageUpserted := usageTypes.contains t
        usageTotalIncrement := if usageTypes.contains t then 1 else 0 }

/-- `checkAndChargeOverage` of `billing.server.ts` reduced to the
usage units it signals to `billing.createUsageRecord` (0 means no
usage record is created): nothing for shops without an active paid
subscription; nothing when usage is within the plan limit; otherwise
`currentUsage - planLimit - chargedVisitors` unless that is already
covered (≤ 0). -/
def overageSignal (hasActivePayment : Bool) (currentUsage planLimit chargedVisitors : Int) : Int :=
  if !hasActivePayment then 0
  else if currentUsage ≤ planLimit then 0
  else if currentUsage - planLimit - chargedVisitors ≤ 0 then 0
  else currentUsage - planLimit - chargedVisitors

/-- Membership is preserved by the priority insertion. -/
theorem mem_insertByPriority {x r : RedirectRule} {l : List RedirectRule} :
    x ∈ insertByPriority r l ↔ x = r ∨ x ∈ l := by
  induction l with
  | nil => simp [insertByPriority]
  | cons y ys ih =>
      unfold insertByPriority
      by_cases h : y.priority < r.priority
      · simp [h]
      · simp [h, ih]
        tauto

/-- Sorting by priority neither adds nor removes rules. -/
theorem mem_sortByPriorityDesc {x : RedirectRule} {l : List RedirectRule} :
    x ∈ sortByPriorityDesc l ↔ x ∈ l := by
  induction l with
  | nil => simp [sortByPriorityDesc]
  | cons y ys ih =>
      simp only [sortByPriorityDesc, List.foldr] at ih ⊢
      rw [mem_insertByPriority, ih]
      simp

/-- Inserting into a priority-descending list keeps it descending. -/
theorem priorityDesc_insertByPriority (r : RedirectRule) {l : List RedirectRule}
    (h : PriorityDesc l) : PriorityDesc (insertByPriority r l) := by
  induction l with
  | nil => simp [insertByPriority, PriorityDesc]
  | cons y ys ih =>
      obtain ⟨hy, hys⟩ := List.pairwise_cons.mp h
      unfold PriorityDesc insertByPriority
      by_cases hcmp : y.priority < r.priority
      · rw [if_pos hcmp]
        refine List.pairwise_cons.mpr ⟨?_, List.pairwise_cons.mpr ⟨hy, hys⟩⟩
        intro z hz
        rcases List.mem_cons.mp hz with rfl | hz
        · exact le_of_lt hcmp
        · exact le_trans (hy _ hz) (le_of_lt hcmp)
      · rw [if_neg hcmp]
        refine List.pairwise_cons.mpr ⟨?_, ih hys⟩
        intro z hz
        rcases mem_insertByPriority.mp hz with rfl | hz
        · exact le_of_not_lt hcmp
        · exact hy _ hz

/-- The sort used to model `orderBy: priority desc` produces a
priority-descending list. -/
theorem priorityDesc_sortByPriorityDesc (l : List RedirectRule) :
    PriorityDesc (sortByPriorityDesc l) := by
  induction l with
  | nil => exact List.Pairwise.nil
  | cons y ys ih => exact priorityDesc_insertByPriority y ih

/-- Filtering a priority-descending list keeps it descending. -/
theorem PriorityDesc.of_filter (p : RedirectRule → Bool) {l : List RedirectRule}
    (h : PriorityDesc l) : PriorityDesc (l.filter p) :=
  h.sublist (List.filter_sublist l)

/-- C3: the schedule check is true whenever `scheduleEnabled` is
false; when it is true, the timezone conversion succeeds, the
day-of-week check passes and both bounds are present and parse to
minutes-since-midnight, a normal window (start ≤ end) is in-window
exactly on start ≤ now ≤ end (both boundaries included) and an
overnight window (start > end) exactly on now ≥ start or now ≤ end,
so a now strictly between end and start is out-of-window. -/
theorem schedule_window_bounds (r : RedirectRule) (tz : TzEnv) (lt : LocalTime)
    (s e : String) (sm em : Nat)
    (henv : tz (effectiveTimezone r) = some lt)
    (hday : dayCheck r.daysOfWeek lt.day = true)
    (hst : r.startTime = some s) (het : r.endTime = some e)
    (hs : s ≠ "") (he : e ≠ "")
    (hsm : parseMinutesHM s = some sm) (hem : parseMinutesHM e = some em) :
    (∀ (r₀ : RedirectRule) (tz₀ : TzEnv), r₀.scheduleEnabled = false →
      isInWindow r₀ tz₀ = true) ∧
    (r.scheduleEnabled = true →
      isInWindow r tz =
        if sm ≤ em then decide (sm ≤ lt.minutes ∧ lt.minutes ≤ em)
        else decide (sm ≤ lt.minutes ∨ lt.minutes ≤ em)) := by
  constructor
  · intro r₀ tz₀ h₀
    simp [isInWindow, h₀]
  · intro hsched
    rw [isInWindow, hsched]
    simp only [Bool.not_true, Bool.false_eq_true, if_false, henv, hday, if_true]
    rw [timeCheck, hst, het]
    simp only [jsTruthy, Option.getD_some, hsm, hem, jsLe, jsLt]
    have hbs : (s == "") = false := by simp [hs]
    have hbe : (e == "") = false := by simp [he]
    rw [hbs, hbe]
    simp only [Bool.not_false, Bool.and_self, if_true]
    by_cases hc : sm ≤ em
    · simp only [decide_eq_true_eq, hc, if_true, decide_eq_true hc]
      rcases Nat.lt_or_ge lt.minutes sm with h | h <;>
        rcases Nat.lt_or_ge em lt.minutes with h₂ | h₂ <;>
          simp [h, h₂]
    · simp only [decide_eq_false hc, Bool.false_eq_true, if_false, hc]
      rcases Nat.lt_or_ge lt.minutes sm with h | h <;>
        rcases Nat.lt_or_ge em lt.minutes with h₂ | h₂ <;>
          simp [h, h₂]

/-- Concrete overnight-window rule used to instantiate the schedule
theorems. -/
def c3Rule : RedirectRule :=
  { id := "c3", shop := "demo.myshopify.com", name := "Night window",
    matchType := "country", countryCodes := "DE", ipAddresses := "",
    targetUrl := "https://example.de", ruleType := "redirect",
    isActive := true, priority := 1, scheduleEnabled := true,
    startTime := some "22:00", endTime := some "06:00",
    daysOfWeek := none, timezone := some "UTC" }

/-- Concrete timezone environment: 23:00 on a Wednesday. -/
def c3Tz : TzEnv := fun _ => some { minutes := 1380, day := 3 }

/-- Witness for the C3 theorem: the 22:00–06:00 overnight window at
23:00 local time evaluates through the overnight branch of the
formula. -/
theorem schedule_window_bounds_witness :
    parseMinutesHM "22:00" = some 1320 ∧ parseMinutesHM "06:00" = some 360 ∧
    isInWindow c3Rule c3Tz =
      (if 1320 ≤ 360 then decide ((1320 : Nat) ≤ 1380 ∧ (1380 : Nat) ≤ 360)
       else decide ((1320 : Nat) ≤ 1380 ∨ (1380 : Nat) ≤ 360)) :=
  ⟨by decide, by decide,
   (schedule_window_bounds c3Rule c3Tz { minutes := 1380, day := 3 }
      "22:00" "06:00" 1320 360 rfl (by decide) rfl rfl (by decide) (by decide)
      (by decide) (by decide)).2 rfl⟩

/-- C6: for a schedule-enabled rule, if interpreting the current
instant in the rule's timezone fails (the conversion environment
reports a throw), the schedule check returns true — the rule is kept,
not dropped. -/
theorem schedule_failopen_on_tz_error (r : RedirectRule) (tz : TzEnv)
    (hs : r.scheduleEnabled = true) (hf : tz (effectiveTimezone r) = none) :
    isInWindow r tz = true := by
  rw [isInWindow, hs]
  simp [hf]

/-- Concrete rule with a broken timezone identifier. -/
def c6Rule : RedirectRule :=
  { id := "c6", shop := "demo.myshopify.com", name := "Typo timezone",
    matchType := "country", countryCodes := "FR", ipAddresses := "",
    targetUrl := "https://example.fr", ruleType := "redirect",
    isActive := true, priority := 2, scheduleEnabled := true,
    startTime := some "09:00", endTime := some "17:00",
    daysOfWeek := some "1,2,3", timezone := some "Not/AZone" }

/-- Conversion environment in which every timezone lookup throws. -/
def c6Tz : TzEnv := fun _ => none

/-- Witness for the C6 theorem at a concrete schedule-enabled rule
whose timezone conversion throws. -/
theorem schedule_failopen_on_tz_error_witness :
    c6Rule.scheduleEnabled = true ∧ c6Tz (effectiveTimezone c6Rule) = none ∧
    isInWindow c6Rule c6Tz = true :=
  ⟨rfl, rfl, schedule_failopen_on_tz_error c6Rule c6Tz rfl rfl⟩

/-- C7: for a schedule-enabled rule whose `daysOfWeek` is unset or the
empty string, the day-of-week check passes on every weekday index, and
the schedule check reduces to the time-window check alone. -/
theorem schedule_empty_days_passes (r : RedirectRule) (tz : TzEnv) (lt : LocalTime)
    (hs : r.scheduleEnabled = true)
    (hd : r.daysOfWeek = none ∨ r.daysOfWeek = some "")
    (henv : tz (effectiveTimezone r) = some lt) :
    (∀ d : Nat, dayCheck r.daysOfWeek d = true) ∧
    isInWindow r tz = timeCheck r.startTime r.endTime lt.minutes := by
  have hdc : ∀ d : Nat, dayCheck r.daysOfWeek d = true := by
    intro d
    rcases hd with h | h <;> simp [dayCheck, h, jsTruthy]
  refine ⟨hdc, ?_⟩
  rw [isInWindow, hs]
  simp [henv, hdc lt.day]

/-- Concrete rule with an empty `daysOfWeek` string. -/
def c7Rule : RedirectRule :=
  { id := "c7", shop := "demo.myshopify.com", name := "All days",
    matchType := "country", countryCodes := "US", ipAddresses := "",
    targetUrl := "https://example.com/us", ruleType := "redirect",
    isActive := true, priority := 3, scheduleEnabled := true,
    startTime := some "09:00", endTime := some "17:00",
    daysOfWeek := some "", timezone := none }

/-- Conversion environment: 10:00 on a Friday. -/
def c7Tz : TzEnv := fun _ => some { minutes := 600, day := 5 }

/-- Witness for the C7 theorem at a concrete rule with an empty
`daysOfWeek`. -/
theorem schedule_empty_days_passes_witness :
    (∀ d : Nat, dayCheck c7Rule.daysOfWeek d = true) ∧
    isInWindow c7Rule c7Tz = timeCheck c7Rule.startTime c7Rule.endTime 600 :=
  schedule_empty_days_passes c7Rule c7Tz { minutes := 600, day := 5 }
    rfl (Or.inr rfl) rfl

/-- The gate of `proxy.config.tsx` fires exactly on a free plan whose
monthly usage has reached 100 (the free limit is the only one a plan
normalising to "free" can resolve to). -/
theorem limitSuspended_iff (cp : Option String) (usage : Nat) :
    limitSuspended cp usage = true ↔
      (normalizedPlan cp = some "free" ∧ 100 ≤ usage) := by
  unfold limitSuspended
  by_cases h : normalizedPlan cp = some "free"
  · have hl : planLimitOf cp = 100 := by
      unfold planLimitOf
      rw [h]
      rfl
    simp [h, hl]
  · simp [h]

/-- C4: under a live request (shop present, signature valid, data
store up), the config response carries `limitExceeded` (and then
`enabled: false`) exactly when the stored plan is "free" and the
month's `totalVisitors` has reached the free limit 100; a paid plan
("premium" or "plus") never trips the gate, whatever the usage. -/
theorem plan_gate_free_only (env : ConfigEnv)
    (hshop : jsTruthy env.shopParam = true)
    (hauth : env.authOk = true)
    (hdb : env.dbFails = false) :
    ((proxyConfigLoader env).limitExceeded = true ↔
      (normalizedPlan (env.settingsRow.getD defaultSettings).currentPlan = some "free" ∧
        100 ≤ env.monthlyTotalVisitors.getD 0)) ∧
    ((proxyConfigLoader env).limitExceeded = true →
      (proxyConfigLoader env).enabled = some false) ∧
    (∀ (p : String) (usage : Nat), p = "premium" ∨ p = "plus" →
      limitSuspended (some p) usage = false) := by
  have hiff := limitSuspended_iff (env.settingsRow.getD defaultSettings).currentPlan
    (env.monthlyTotalVisitors.getD 0)
  refine ⟨?_, ?_, ?_⟩
  · rw [← hiff]
    unfold proxyConfigLoader
    rw [hshop, hauth, hdb]
    by_cases hls : limitSuspended (env.settingsRow.getD defaultSettings).currentPlan
        (env.monthlyTotalVisitors.getD 0) = true
    · simp [hls]
    · simp only [Bool.not_true, Bool.false_eq_true, if_false]
      rw [Bool.not_eq_true] at hls
      simp [hls]
  · unfold proxyConfigLoader
    rw [hshop, hauth, hdb]
    by_cases hls : limitSuspended (env.settingsRow.getD defaultSettings).currentPlan
        (env.monthlyTotalVisitors.getD 0) = true
    · simp [hls]
    · rw [Bool.not_eq_true] at hls
      simp [hls]
  · intro p usage hp
    rcases hp with rfl | rfl <;> simp [limitSuspended, normalizedPlan, jsTruthy]

/-- A header set with every proxy header absent. -/
def noHeaders : RequestHeaders :=
  { shopifyClientIP := none, cfConnectingIP := none, xRealIP := none,
    trueClientIP := none, xClientIP := none, xForwardedFor := none }

/-- Settings row of a free-plan shop. -/
def c4Settings : ShopSettings :=
  { mode := "popup", excludeBots := true, excludedIPs := ""
    cookieDuration := 7, currentPlan := some "free" }

/-- Concrete config environment: a free-plan shop whose month already
counted 100 visitors. -/
def c4Env : ConfigEnv :=
  { shopParam := some "demo.myshopify.com", headers := noHeaders
    detectedCountry := "", authOk := true, dbFails := false
    settingsRow := some c4Settings
    db := [], tz := fun _ => none, monthlyTotalVisitors := some 100 }

/-- Witness for the C4 theorem: the free shop at 100/100 gets the
suspension body, and a premium shop far over its limit never does. -/
theorem plan_gate_free_only_witness :
    (proxyConfigLoader c4Env).limitExceeded = true ∧
    (proxyConfigLoader c4Env).enabled = some false ∧
    limitSuspended (some "premium") 100000 = false := by
  have h := plan_gate_free_only c4Env rfl rfl rfl
  have hle := h.1.mpr ⟨by decide, by decide⟩
  exact ⟨hle, h.2.1 hle, h.2.2 "premium" 100000 (Or.inl rfl)⟩

/-- C5: for a shop with an active paid subscription and a
non-negative already-charged counter, the usage units signalled to
billing equal `max 0 (currentUsage - planLimit - chargedVisitors)`,
and no usage record is created (signal 0) when that difference is not
positive; being a pure function of the persisted snapshot, the
recomputation is idempotent. -/
theorem overage_signal_max_formula (u l c : Int) (hc : 0 ≤ c) :
    overageSignal true u l c = max 0 (u - l - c) ∧
    (u - l - c ≤ 0 → overageSignal true u l c = 0) := by
  unfold overageSignal
  simp only [Bool.not_true, Bool.false_eq_true, if_false]
  constructor
  · rcases max_cases (0 : Int) (u - l - c) with ⟨heq, h⟩ | ⟨heq, h⟩ <;>
      rw [heq] <;> split_ifs <;> omega
  · intro h
    split_ifs <;> omega

/-- Witness for the C5 theorem at the spec's own vector: premium plan,
usage 800, limit 750, nothing charged yet → 50 units. -/
theorem overage_signal_max_formula_witness :
    (0 : Int) ≤ 0 ∧ overageSignal true 800 750 0 = max 0 (800 - 750 - 0) ∧
    overageSignal true 800 750 0 = 50 :=
  ⟨le_refl 0, (overage_signal_max_formula 800 750 0 (le_refl 0)).1, by decide⟩

/-- C9: a posted event (shop and type present, data store up) from a
shop with no `Settings` row is answered 401, and one from a registered
shop with a type outside the whitelist is answered 400; in either case
no log, stat or usage row is created or updated.  (The shop check runs
first in the source, so the whitelist clause is stated for registered
shops.) -/
theorem analytics_reject_guards (env : AnalyticsEnv) (evt : AnalyticsEvent) (s : String)
    (hshop : env.shopParam = some s) (hs : s ≠ "")
    (htype : jsTruthy evt.type = true)
    (hdb : env.dbFails = false) :
    (env.registered s = false →
      (analyticsAction env evt).status = 401 ∧
      (analyticsAction env evt).logCreated = false ∧
      (analyticsAction env evt).countryStatUpserted = false ∧
      (analyticsAction env evt).ruleStatUpserted = false ∧
      (analyticsAction env evt).usageUpserted = false ∧
      (analyticsAction env evt).usageTotalIncrement = 0) ∧
    (env.registered s = true → VALID_TYPES.contains (evt.type.getD "") = false →
      (analyticsAction env evt).status = 400 ∧
      (analyticsAction env evt).logCreated = false ∧
      (analyticsAction env evt).countryStatUpserted = false ∧
      (analyticsAction env evt).ruleStatUpserted = false ∧
      (analyticsAction env evt).usageUpserted = false ∧
      (analyticsAction env evt).usageTotalIncrement = 0) := by
  have hjs : jsTruthy (some s) = true := by simp [jsTruthy, hs]
  constructor
  · intro hreg
    simp [analyticsAction, hjs, htype, hdb, hshop, hreg]
  · intro hreg hvalid
    have hvnm : ¬(evt.type.getD "" ∈ VALID_TYPES) := by simpa using hvalid
    simp [analyticsAction, hjs, htype, hdb, hshop, hreg, hvnm]

/-- Analytics environment whose shop has no `Settings` row. -/
def c9EnvUnknown : AnalyticsEnv :=
  { shopParam := some "ghost.myshopify.com", registered := fun _ => false,
    dbFails := false, logWriteOk := true }

/-- Analytics environment with a registered shop. -/
def c9EnvKnown : AnalyticsEnv :=
  { shopParam := some "demo.myshopify.com", registered := fun _ => true,
    dbFails := false, logWriteOk := true }

/-- A plain visit event with a visitor IP and a country. -/
def c9VisitEvt : AnalyticsEvent :=
  { type := some "visit", countryCode := some "US", ruleId := none,
    ruleName := none, visitorIP := some "1.2.3.4" }

/-- An event whose type is outside the whitelist. -/
def c9BogusEvt : AnalyticsEvent :=
  { type := some "made_up_event", countryCode := some "US", ruleId := none,
    ruleName := none, visitorIP := some "1.2.3.4" }

/-- Witness for the C9 theorem: the unknown shop gets 401 and writes
nothing; the registered shop with an unknown type gets 400 and writes
nothing. -/
theorem analytics_reject_guards_witness :
    (analyticsAction c9EnvUnknown c9VisitEvt).status = 401 ∧
    (analyticsAction c9EnvUnknown c9VisitEvt).usageUpserted = false ∧
    (analyticsAction c9EnvUnknown c9VisitEvt).logCreated = false ∧
    (analyticsAction c9EnvKnown c9BogusEvt).status = 400 ∧
    (analyticsAction c9EnvKnown c9BogusEvt).usageUpserted = false ∧
    (analyticsAction c9EnvKnown c9BogusEvt).logCreated = false := by
  have h₁ := (analytics_reject_guards c9EnvUnknown c9VisitEvt "ghost.myshopify.com"
    rfl (by decide) (by decide) rfl).1 rfl
  have h₂ := (analytics_reject_guards c9EnvKnown c9BogusEvt "demo.myshopify.com"
    rfl (by decide) (by decide) rfl).2 rfl (by decide)
  exact ⟨h₁.1, h₁.2.2.2.2.1, h₁.2.1, h₂.1, h₂.2.2.2.2.1, h₂.2.1⟩

/-- C10: for an accepted analytics event, the monthly-usage upsert
runs — incrementing `monthlyUsage.totalVisitors` by exactly 1 — iff
the type is one of redirected, auto_redirected, blocked,
ip_redirected, ip_blocked; a plain visit event never touches the
monthly usage counter. -/
theorem usage_counter_counts_actions (env : AnalyticsEnv) (evt : AnalyticsEvent)
    (s t : String)
    (hshop : env.shopParam = some s) (hs : s ≠ "")
    (htype : evt.type = some t) (ht : t ≠ "")
    (hdb : env.dbFails = false)
    (hreg : env.registered s = true)
    (hvalid : VALID_TYPES.contains t = true) :
    ((analyticsAction env evt).usageUpserted = true ↔ t ∈ usageTypes) ∧
    (analyticsAction env evt).usageTotalIncrement =
      (if t ∈ usageTypes then 1 else 0) ∧
    (t = "visit" → (analyticsAction env evt).usageUpserted = false ∧
      (analyticsAction env evt).usageTotalIncrement = 0) := by
  have hjs : jsTruthy (some s) = true := by simp [jsTruthy, hs]
  have hjt : jsTruthy (some t) = true := by simp [jsTruthy, ht]
  have hvm : t ∈ VALID_TYPES := by simpa using hvalid
  have hact : (analyticsAction env evt).usageUpserted = decide (t ∈ usageTypes) ∧
      (analyticsAction env evt).usageTotalIncrement =
        (if t ∈ usageTypes then 1 else 0) := by
    constructor <;>
      simp [analyticsAction, hjs, hjt, hdb, hshop, hreg, htype, hvm]
  refine ⟨?_, hact.2, ?_⟩
  · rw [hact.1]
    simp
  · intro hv
    subst hv
    refine ⟨by rw [hact.1]; decide, ?_⟩
    rw [hact.2]
    simp [show ¬("visit" ∈ usageTypes) from by decide]

/-- Membership in the country query: exactly the shop's active
country rules. -/
theorem mem_countryRulesQuery {r : RedirectRule} {db : List RedirectRule} {shop : String} :
    r ∈ countryRulesQuery db shop ↔
      (r ∈ db ∧ r.shop = shop ∧ r.isActive = true ∧ r.matchType = "country") := by
  unfold countryRulesQuery
  rw [mem_sortByPriorityDesc]
  simp [List.mem_filter]
  tauto

/-- Membership in the IP query: exactly the shop's active IP rules. -/
theorem mem_ipRulesQuery {r : RedirectRule} {db : List RedirectRule} {shop : String} :
    r ∈ ipRulesQuery db shop ↔
      (r ∈ db ∧ r.shop = shop ∧ r.isActive = true ∧ r.matchType = "ip") := by
  unfold ipRulesQuery
  rw [mem_sortByPriorityDesc]
  simp [List.mem_filter]
  tauto

/-- Membership in the api route's single query: the shop's active
rules. -/
theorem mem_allActiveRulesQuery {r : RedirectRule} {db : List RedirectRule} {shop : String} :
    r ∈ allActiveRulesQuery db shop ↔
      (r ∈ db ∧ r.shop = shop ∧ r.isActive = true) := by
  unfold allActiveRulesQuery
  rw [mem_sortByPriorityDesc]
  simp [List.mem_filter]

/-- C1 amended: in `proxy.config.tsx` the country list sent to the
client holds only active, currently in-window rules and is ordered by
priority descending, and the IP list holds only active rules and is
ordered by priority descending — but is not filtered by schedule; in
`api.geolocation.tsx` both lists are active-only and priority-ordered
with no schedule filtering at all. -/
theorem config_rule_lists_shape (db : List RedirectRule) (shop : String) (tz : TzEnv) :
    (∀ r ∈ activeCountryRules db shop tz,
      r.isActive = true ∧ r.matchType = "country" ∧ isInWindow r tz = true) ∧
    PriorityDesc (activeCountryRules db shop tz) ∧
    (∀ r ∈ ipRulesQuery db shop, r.isActive = true ∧ r.matchType = "ip") ∧
    PriorityDesc (ipRulesQuery db shop) ∧
    (∀ r ∈ apiCountryRules db shop, r.isActive = true ∧ r.matchType = "country") ∧
    PriorityDesc (apiCountryRules db shop) ∧
    (∀ r ∈ apiIpRules db shop, r.isActive = true ∧ r.matchType = "ip") ∧
    PriorityDesc (apiIpRules db shop) := by
  refine ⟨?_, ?_, ?_, ?_, ?_, ?_, ?_, ?_⟩
  · intro r hr
    obtain ⟨hq, hw⟩ := List.mem_filter.mp hr
    obtain ⟨-, -, ha, hm⟩ := mem_countryRulesQuery.mp hq
    exact ⟨ha, hm, hw⟩
  · exact (priorityDesc_sortByPriorityDesc _).of_filter _
  · intro r hr
    obtain ⟨-, -, ha, hm⟩ := mem_ipRulesQuery.mp hr
    exact ⟨ha, hm⟩
  · exact priorityDesc_sortByPriorityDesc _
  · intro r hr
    obtain ⟨hq, hm⟩ := List.mem_filter.mp hr
    obtain ⟨-, -, ha⟩ := mem_allActiveRulesQuery.mp hq
    exact ⟨ha, by simpa using hm⟩
  · exact (priorityDesc_sortByPriorityDesc _).of_filter _
  · intro r hr
    obtain ⟨hq, hm⟩ := List.mem_filter.mp hr
    obtain ⟨-, -, ha⟩ := mem_allActiveRulesQuery.mp hq
    exact ⟨ha, by simpa using hm⟩
  · exact (priorityDesc_sortByPriorityDesc _).of_filter _

/-- An active IP rule with an out-of-window schedule. -/
def c1IpRule : RedirectRule :=
  { id := "c1", shop := "demo.myshopify.com", name := "Office hours IP block",
    matchType := "ip", countryCodes := "", ipAddresses := "8.8.8.8",
    targetUrl := "", ruleType := "block", isActive := true, priority := 7,
    scheduleEnabled := true, startTime := some "09:00", endTime := some "17:00",
    daysOfWeek := none, timezone := some "UTC" }

/-- Conversion environment: 05:00 on a Monday (outside 09:00–17:00). -/
def c1Tz : TzEnv := fun _ => some { minutes := 300, day := 1 }

/-- Config environment whose only rule is the out-of-window IP rule. -/
def c1Env : ConfigEnv :=
  { shopParam := some "demo.myshopify.com", headers := noHeaders
    detectedCountry := "", authOk := true, dbFails := false
    settingsRow := some defaultSettings
    db := [c1IpRule], tz := c1Tz, monthlyTotalVisitors := none }

/-- C1 counterexample: an active schedule-enabled IP rule that is out
of its window right now is still delivered to the client in the
`ipRules` list of the config response, so the returned IP-rule list is
not filtered to in-window rules. -/
theorem config_ip_rules_not_schedule_filtered :
    c1IpRule.isActive = true ∧ c1IpRule.scheduleEnabled = true ∧
    isInWindow c1IpRule c1Env.tz = false ∧
    (proxyConfigLoader c1Env).status = 200 ∧
    ipRuleTransform c1IpRule ∈ (proxyConfigLoader c1Env).ipRules := by
  decide

/-- Witness for the C1 amended theorem at the same concrete database:
the delivered IP rule is active and the lists are priority-sorted. -/
theorem config_rule_lists_shape_witness :
    (c1IpRule.isActive = true ∧ c1IpRule.matchType = "ip") ∧
    PriorityDesc (ipRulesQuery [c1IpRule] "demo.myshopify.com") :=
  ⟨(config_rule_lists_shape [c1IpRule] "demo.myshopify.com" c1Tz).2.2.1 c1IpRule
      (by decide),
   (config_rule_lists_shape [c1IpRule] "demo.myshopify.com" c1Tz).2.2.2.1⟩

/-- A redirected event (counts toward monthly usage). -/
def c10RedirectEvt : AnalyticsEvent :=
  { type := some "redirected", countryCode := some "DE", ruleId := some "r9",
    ruleName := some "EU redirect", visitorIP := some "5.5.5.5" }

/-- C2 amended: when the data store throws under a live request, each
storefront endpoint answers from its catch branch with HTTP status 500
— contrary to the no-5xx claim — but the config bodies carry
`enabled: false` and empty rule lists and the analytics fault writes
no usage row, so no geolocation action results from the fault. -/
theorem storefront_fault_responses (ce : ConfigEnv) (ge : GeoEnv)
    (ae : AnalyticsEnv) (evt : AnalyticsEvent)
    (h₁ : jsTruthy ce.shopParam = true) (h₂ : ce.authOk = true)
    (h₃ : ce.dbFails = true)
    (h₄ : jsTruthy ge.shopParam = true) (h₅ : ge.dbFails = true)
    (h₆ : jsTruthy ae.shopParam = true) (h₇ : jsTruthy evt.type = true)
    (h₈ : ae.dbFails = true) :
    (proxyConfigLoader ce).status = 500 ∧
    (proxyConfigLoader ce).enabled = some false ∧
    (proxyConfigLoader ce).rules = [] ∧ (proxyConfigLoader ce).ipRules = [] ∧
    (apiGeolocationLoader ge).status = 500 ∧
    (apiGeolocationLoader ge).rules = [] ∧ (apiGeolocationLoader ge).ipRules = [] ∧
    (analyticsAction ae evt).status = 500 ∧
    (analyticsAction ae evt).usageUpserted = false := by
  refine ⟨?_, ?_, ?_, ?_, ?_, ?_, ?_, ?_, ?_⟩ <;>
    simp [proxyConfigLoader, apiGeolocationLoader, analyticsAction,
      h₁, h₂, h₃, h₄, h₅, h₆, h₇, h₈]

/-- Config environment whose data store throws. -/
def c2ConfigEnv : ConfigEnv :=
  { shopParam := some "demo.myshopify.com", headers := noHeaders
    detectedCountry := "", authOk := true, dbFails := true
    settingsRow := none, db := [], tz := fun _ => none
    monthlyTotalVisitors := none }

/-- Api-route environment whose data store throws. -/
def c2GeoEnv : GeoEnv :=
  { shopParam := some "demo.myshopify.com", headers := noHeaders
    dbFails := true, settingsRow := none, db := [] }

/-- Analytics environment whose data store throws. -/
def c2AnEnv : AnalyticsEnv :=
  { shopParam := some "demo.myshopify.com", registered := fun _ => true,
    dbFails := true, logWriteOk := true }

/-- A visit event used against the failing analytics endpoint. -/
def c2Evt : AnalyticsEvent :=
  { type := some "visit", countryCode := some "US", ruleId := none,
    ruleName := none, visitorIP := some "1.2.3.4" }

/-- C2 counterexample: with the data store down, all three
storefront-facing endpoints answer a 5xx (HTTP 500) to the visitor's
request, so an internal fault does produce a visitor-facing 5xx. -/
theorem storefront_fault_500s :
    (proxyConfigLoader c2ConfigEnv).status = 500 ∧
    (apiGeolocationLoader c2GeoEnv).status = 500 ∧
    (analyticsAction c2AnEnv c2Evt).status = 500 := by
  decide

/-- Witness for the C2 amended theorem at the concrete failing
environments. -/
theorem storefront_fault_responses_witness :
    (proxyConfigLoader c2ConfigEnv).status = 500 ∧
    (proxyConfigLoader c2ConfigEnv).enabled = some false ∧
    (proxyConfigLoader c2ConfigEnv).rules = [] ∧
    (proxyConfigLoader c2ConfigEnv).ipRules = [] ∧
    (apiGeolocationLoader c2GeoEnv).status = 500 ∧
    (apiGeolocationLoader c2GeoEnv).rules = [] ∧
    (apiGeolocationLoader c2GeoEnv).ipRules = [] ∧
    (analyticsAction c2AnEnv c2Evt).status = 500 ∧
    (analyticsAction c2AnEnv c2Evt).usageUpserted = false :=
  storefront_fault_responses c2ConfigEnv c2GeoEnv c2AnEnv c2Evt
    rfl rfl rfl rfl rfl rfl rfl rfl

/-- C8 amended: `proxy.config.tsx` picks the visitor IP through a
six-header chain — x-shopify-client-ip, cf-connecting-ip, x-real-ip,
true-client-ip, x-client-ip, then the trimmed first X-Forwarded-For
segment, then "0.0.0.0" — and `api.geolocation.tsx` consults only
x-shopify-client-ip, then the untrimmed first X-Forwarded-For segment,
then "0.0.0.0" (its result never depends on the other four headers). -/
theorem visitor_ip_header_chain (h : RequestHeaders) :
    (jsTruthy h.shopifyClientIP = true →
      getVisitorIP h = h.shopifyClientIP.getD "" ∧
      apiVisitorIP h = h.shopifyClientIP.getD "") ∧
    (jsTruthy h.shopifyClientIP = false → jsTruthy h.cfConnectingIP = true →
      getVisitorIP h = h.cfConnectingIP.getD "") ∧
    (jsTruthy h.shopifyClientIP = false → jsTruthy h.cfConnectingIP = false →
      jsTruthy h.xRealIP = true → getVisitorIP h = h.xRealIP.getD "") ∧
    (jsTruthy h.shopifyClientIP = false → jsTruthy h.cfConnectingIP = false →
      jsTruthy h.xRealIP = false → jsTruthy h.trueClientIP = true →
      getVisitorIP h = h.trueClientIP.getD "") ∧
    (jsTruthy h.shopifyClientIP = false → jsTruthy h.cfConnectingIP = false →
      jsTruthy h.xRealIP = false → jsTruthy h.trueClientIP = false →
      jsTruthy h.xClientIP = true → getVisitorIP h = h.xClientIP.getD "") ∧
    (jsTruthy h.shopifyClientIP = false → jsTruthy h.cfConnectingIP = false →
      jsTruthy h.xRealIP = false → jsTruthy h.trueClientIP = false →
      jsTruthy h.xClientIP = false → jsTruthy h.xForwardedFor = true →
      getVisitorIP h = jsTrim ((jsSplit ',' (h.xForwardedFor.getD "")).headD "")) ∧
    (jsTruthy h.shopifyClientIP = false → jsTruthy h.cfConnectingIP = false →
      jsTruthy h.xRealIP = false → jsTruthy h.trueClientIP = false →
      jsTruthy h.xClientIP = false → jsTruthy h.xForwardedFor = false →
      getVisitorIP h = "0.0.0.0") ∧
    (∀ h₂ : RequestHeaders, h₂.shopifyClientIP = h.shopifyClientIP →
      h₂.xForwardedFor = h.xForwardedFor → apiVisitorIP h₂ = apiVisitorIP h) := by
  refine ⟨?_, ?_, ?_, ?_, ?_, ?_, ?_, ?_⟩
  · intro p₁
    exact ⟨by simp [getVisitorIP, p₁], by simp [apiVisitorIP, p₁]⟩
  · intro p₁ p₂
    simp [getVisitorIP, p₁, p₂]
  · intro p₁ p₂ p₃
    simp [getVisitorIP, p₁, p₂, p₃]
  · intro p₁ p₂ p₃ p₄
    simp [getVisitorIP, p₁, p₂, p₃, p₄]
  · intro p₁ p₂ p₃ p₄ p₅
    simp [getVisitorIP, p₁, p₂, p₃, p₄, p₅]
  · intro p₁ p₂ p₃ p₄ p₅ p₆
    simp [getVisitorIP, p₁, p₂, p₃, p₄, p₅, p₆]
  · intro p₁ p₂ p₃ p₄ p₅ p₆
    simp [getVisitorIP, p₁, p₂, p₃, p₄, p₅, p₆]
  · intro h₂ e₁ e₂
    simp [apiVisitorIP, e₁, e₂]

/-- Headers where only X-Real-IP and X-Forwarded-For are present. -/
def c8Headers : RequestHeaders :=
  { shopifyClientIP := none, cfConnectingIP := none, xRealIP := some "9.9.9.9",
    trueClientIP := none, xClientIP := none,
    xForwardedFor := some "1.2.3.4, 5.6.7.8" }

/-- Headers where only the CDN header and X-Forwarded-For are
present. -/
def c8HeadersB : RequestHeaders :=
  { shopifyClientIP := none, cfConnectingIP := some "7.7.7.7", xRealIP := none,
    trueClientIP := none, xClientIP := none, xForwardedFor := some "1.2.3.4" }

/-- C8 counterexample: with no platform or CDN header, the claimed
four-step chain picks the first X-Forwarded-For segment, but
`proxy.config.tsx` answers X-Real-IP — a source the claim does not
allow to outrank X-Forwarded-For; and `api.geolocation.tsx` ignores
the CDN header, answering the X-Forwarded-For segment where the
claimed chain answers the CDN header. -/
theorem visitor_ip_chain_mismatch :
    getVisitorIP c8Headers = "9.9.9.9" ∧
    specVisitorIP c8Headers = "1.2.3.4" ∧
    getVisitorIP c8Headers ≠ specVisitorIP c8Headers ∧
    apiVisitorIP c8HeadersB = "1.2.3.4" ∧
    specVisitorIP c8HeadersB = "7.7.7.7" ∧
    apiVisitorIP c8HeadersB ≠ specVisitorIP c8HeadersB := by
  decide

/-- Witness for the C8 amended theorem: the six-header chain at the
concrete headers answers X-Real-IP, and the api route's result is
unchanged when the CDN header is dropped. -/
theorem visitor_ip_header_chain_witness :
    getVisitorIP c8Headers = (some "9.9.9.9").getD "" ∧
    apiVisitorIP c8HeadersB =
      apiVisitorIP { c8HeadersB with cfConnectingIP := none } := by
  refine ⟨?_, ?_⟩
  · exact (visitor_ip_header_chain c8Headers).2.2.1 rfl rfl rfl
  · exact (visitor_ip_header_chain { c8HeadersB with cfConnectingIP := none }).2.2.2.2.2.2.2
      c8HeadersB rfl rfl

/-- Witness for the C10 theorem: a redirected event increments the
monthly counter by 1, a plain visit does not touch it. -/
theorem usage_counter_counts_actions_witness :
    (analyticsAction c9EnvKnown c10RedirectEvt).usageUpserted = true ∧
    (analyticsAction c9EnvKnown c10RedirectEvt).usageTotalIncrement = 1 ∧
    (analyticsAction c9EnvKnown c9VisitEvt).usageUpserted = false ∧
    (analyticsAction c9EnvKnown c9VisitEvt).usageTotalIncrement = 0 := by
  have h₁ := usage_counter_counts_actions c9EnvKnown c10RedirectEvt
    "demo.myshopify.com" "redirected" rfl (by decide) rfl (by decide) rfl rfl (by decide)
  have h₂ := usage_counter_counts_actions c9EnvKnown c9VisitEvt
    "demo.myshopify.com" "visit" rfl (by decide) rfl (by decide) rfl rfl (by decide)
  have h₂v := h₂.2.2 rfl
  refine ⟨h₁.1.mpr (by decide), ?_, h₂v.1, h₂v.2⟩
  rw [h₁.2.1]
  simp [show "redirected" ∈ usageTypes from by decide]
